import Mathlib

/- Shallow embedding of src/libant/db/redis/redis_client.cpp (class ant::RedisClient).
   C++ byte strings are modelled as lists of bytes; the hiredis transport
   (redisConnectWithTimeout / redisvCommand) is an external collaborator and is
   modelled as an oracle supplying a connect result and one reply per issued
   command.  Error messages built by the variadic set_errmsg helper are
   modelled as a tagged type carrying the dynamic arguments of each call site. -/

/-- Byte strings (contents of a C++ std::string, binary safe). -/
abbrev Bytes := List Nat

/-- hiredis reply tag REDIS_REPLY_STRING. -/
def REDIS_REPLY_STRING : Int := 1

/-- hiredis reply tag REDIS_REPLY_ARRAY. -/
def REDIS_REPLY_ARRAY : Int := 2

/-- hiredis reply tag REDIS_REPLY_INTEGER. -/
def REDIS_REPLY_INTEGER : Int := 3

/-- hiredis reply tag REDIS_REPLY_NIL. -/
def REDIS_REPLY_NIL : Int := 4

/-- hiredis reply tag REDIS_REPLY_STATUS. -/
def REDIS_REPLY_STATUS : Int := 5

/-- hiredis reply tag REDIS_REPLY_ERROR. -/
def REDIS_REPLY_ERROR : Int := 6

/-- A hiredis redisReply: tag, integer payload, string payload (none models a
    NULL str pointer, as on array and nil replies) and sub-replies.  The len
    field of the C struct is the length of the str buffer and the elements
    field is the length of the element array, so both are derived here. -/
inductive RedisReply where
  | mk (ty : Int) (integer : Int) (str : Option Bytes) (element : List RedisReply)

/-- Reply tag accessor (reply->type). -/
def RedisReply.ty : RedisReply → Int
  | .mk t _ _ _ => t

/-- Integer payload accessor (reply->integer). -/
def RedisReply.integer : RedisReply → Int
  | .mk _ i _ _ => i

/-- String payload accessor (reply->str); none models a NULL pointer. -/
def RedisReply.str : RedisReply → Option Bytes
  | .mk _ _ s _ => s

/-- Sub-reply accessor (reply->element). -/
def RedisReply.element : RedisReply → List RedisReply
  | .mk _ _ _ e => e

/-- Element count accessor (reply->elements). -/
def RedisReply.elements (r : RedisReply) : Nat := r.element.length

/-- Reading a reply str through a char pointer assignment: the bytes up to the
    first NUL byte (C null-terminated view). -/
def cstr (s : Option Bytes) : Bytes := (s.getD []).takeWhile (fun b => b != 0)

/-- Reading a reply str with its explicit length, std::string(str, len):
    the full byte payload, binary safe. -/
def binStr (r : RedisReply) : Bytes := r.str.getD []

/-- The commands this client builds; one constructor per exec format string
    in redis_client.cpp (flattened over the SET variants). -/
inductive SetCond where
  | plain
  | nx
  | xx
  deriving DecidableEq

/-- Command issued to the transport, one constructor per call site. -/
inductive Cmd where
  | selectDb (db : Int)
  | expireCmd (key : Bytes) (seconds : Nat)
  | expireAtCmd (key : Bytes) (t : Int)
  | ttlCmd (key : Bytes)
  | setCmd (key val : Bytes) (ex : Option Int) (cond : SetCond)
  | getCmd (key : Bytes)
  | saddCmd (key : Bytes) (vals : List Bytes)
  | scardCmd (key : Bytes)
  | sdiffCmd (keys : List Bytes)
  | sdiffStoreCmd (dest : Bytes) (keys : List Bytes)
  | sinterCmd (keys : List Bytes)
  | sinterStoreCmd (dest : Bytes) (keys : List Bytes)
  | sismemberCmd (key val : Bytes)
  | hmgetCmd (key : Bytes) (fields : List Bytes)
  | hmsetCmd (key : Bytes) (fields : List (Bytes × Bytes))
  deriving DecidableEq

/-- Observable interaction with the transport during one call. -/
inductive Event where
  | connectAttempt (ip : String) (port : Int)
  | command (cmd : Cmd)
  deriving DecidableEq

/-- Last error message, one constructor per set_errmsg call site in
    redis_client.cpp, carrying the dynamic arguments of that site. -/
inductive ErrMsg where
  | fromReplyStr (s : Option Bytes)
  | unexpectedReplyType (ty : Int)
  | keyMissingOrTimeoutNotSet (i : Int)
  | setOpErr (msg : String)
  | invalidExpireTime
  | unsupportedOpType (t : Int)
  | invalidNumElements (expected returned : Nat)
  | connectFailed (ipPort : String) (errstr : String) (err : Int)
  | connectFailedNoCtx (ipPort : String)
  | transportErr (errstr : String) (err : Int)
  deriving DecidableEq

/-- kSetOpErrMsg (redis_client.cpp:19): per SetOpType message used on a Nil
    reply to SET. -/
def kSetOpErrMsg : List String := ["Unknow error", "Key already exist", "Key not exist"]

/-- The hiredis redisContext fields the client reads (err, errstr). -/
structure RedisContext where
  err : Int
  errstr : String
  deriving DecidableEq

/-- The RedisClient member state (redis_client.h data members used by the
    source file): target address, lazily held context handle, last error. -/
structure ClientState where
  m_ip_port : String
  m_ip : String
  m_port : Int
  m_context : Option RedisContext
  m_errmsg : Option ErrMsg
  deriving DecidableEq

/-- Transport oracle: the result redisConnectWithTimeout would produce, the
    reply redisvCommand would produce per command (none models a NULL reply),
    and the context err and errstr observed after a failed command. -/
structure Transport where
  connect : Option RedisContext
  run : Cmd → Option RedisReply
  err : Int
  errstr : String

/-- Modelled from the spec: set_errmsg (declared in the missing header
    redis_client.h) formats its arguments and overwrites the stored last
    error message; never accumulated. -/
def RedisClient.set_errmsg (s : ClientState) (e : ErrMsg) : ClientState :=
  { s with m_errmsg := some e }

/-- Modelled from the spec: free_context (missing header) releases the
    transport handle unconditionally and clears it; idempotent. -/
def RedisClient.free_context (s : ClientState) : ClientState :=
  { s with m_context := none }

/-- Modelled from the spec: has_context (missing header) tests whether a
    transport handle is currently held. -/
def RedisClient.has_context (s : ClientState) : Bool := s.m_context.isSome

/-- Apply a pending error message if one was produced. -/
def setErrOpt (s : ClientState) : Option ErrMsg → ClientState
  | none => s
  | some e => RedisClient.set_errmsg s e

/-- Embeds RedisClient::alloc_context (redis_client.cpp:314): run
    redisConnectWithTimeout with the fixed 2 second timeout; keep the context
    only when it was allocated with err == 0, otherwise record an error and
    free any allocated context. -/
def RedisClient.alloc_context (tr : Transport) (s : ClientState) :
    Bool × ClientState × List Event :=
  let ev := [Event.connectAttempt s.m_ip s.m_port]
  match tr.connect with
  | some c =>
    if c.err = 0 then
      (true, { s with m_context := some c }, ev)
    else
      (false,
       RedisClient.free_context
         (RedisClient.set_errmsg { s with m_context := some c }
           (ErrMsg.connectFailed s.m_ip_port c.errstr c.err)), ev)
  | none =>
    (false,
     RedisClient.set_errmsg { s with m_context := none }
       (ErrMsg.connectFailedNoCtx s.m_ip_port), ev)

/-- Embeds RedisClient::exec (redis_client.cpp:332): lazily connect when no
    context is held, issue the command, and on a NULL reply record the
    context error and free the context. -/
def RedisClient.exec (tr : Transport) (s : ClientState) (cmd : Cmd) :
    Option RedisReply × ClientState × List Event :=
  match s.m_context with
  | some _ =>
    match tr.run cmd with
    | some r => (some r, s, [Event.command cmd])
    | none =>
      (none,
       RedisClient.free_context
         (RedisClient.set_errmsg s (ErrMsg.transportErr tr.errstr tr.err)),
       [Event.command cmd])
  | none =>
    match RedisClient.alloc_context tr s with
    | (true, s1, ev) =>
      match tr.run cmd with
      | some r => (some r, s1, ev ++ [Event.command cmd])
      | none =>
        (none,
         RedisClient.free_context
           (RedisClient.set_errmsg s1 (ErrMsg.transportErr tr.errstr tr.err)),
         ev ++ [Event.command cmd])
    | (false, s1, ev) => (none, s1, ev)

/-- Modelled from the spec: execv (missing header redis_client.h) builds the
    variadic command argument vector and shares the exec connection
    lifecycle (lazy connect, release on transport failure). -/
def RedisClient.execv (tr : Transport) (s : ClientState) (cmd : Cmd) :
    Option RedisReply × ClientState × List Event :=
  RedisClient.exec tr s cmd

/-- Modelled from the spec: execm (missing header redis_client.h) builds the
    map oriented command in the deterministic map iteration order and shares
    the exec connection lifecycle. -/
def RedisClient.execm (tr : Transport) (s : ClientState) (cmd : Cmd) :
    Option RedisReply × ClientState × List Event :=
  RedisClient.exec tr s cmd

/-- Outcome of the CHECK_REPLY macro (redis_client.cpp:52): early false
    return (with an optional error message to record) or the checked reply. -/
inductive CheckResult where
  | fail (e : Option ErrMsg)
  | ok (r : RedisReply)

/-- Embeds the CHECK_REPLY macro body: NULL reply fails silently (exec
    already recorded the transport error); the expected tag passes; an Error
    reply records its text; anything else records an unexpected type error. -/
def checkReply (reply : Option RedisReply) (expected : Int) : CheckResult :=
  match reply with
  | none => CheckResult.fail none
  | some r =>
    if r.ty = expected then CheckResult.ok r
    else if r.ty = REDIS_REPLY_ERROR then
      CheckResult.fail (some (ErrMsg.fromReplyStr r.str))
    else
      CheckResult.fail (some (ErrMsg.unexpectedReplyType r.ty))

/-- Result of one public operation: success flag, the final values of the
    by-reference and pointer output parameters, the client state after the
    call, and the transport events of the call. -/
structure OpResult (α : Type) where
  ok : Bool
  out : α
  state : ClientState
  events : List Event
  deriving DecidableEq

/-- Shared shape of every operation that uses CHECK_REPLY: execute, check the
    reply tag, and on success run the operation specific tail. -/
def checkedOp {α : Type} (e : Option RedisReply × ClientState × List Event)
    (expected : Int) (out0 : α)
    (tail : RedisReply → ClientState → List Event → OpResult α) : OpResult α :=
  match e with
  | (reply, s1, ev) =>
    match checkReply reply expected with
    | CheckResult.fail em => ⟨false, out0, setErrOpt s1 em, ev⟩
    | CheckResult.ok r => tail r s1 ev

/-- Embeds RedisClient::select_db (redis_client.cpp:69). -/
def RedisClient.select_db (tr : Transport) (s : ClientState) (dbidx : Int) :
    OpResult Unit :=
  checkedOp (RedisClient.exec tr s (Cmd.selectDb dbidx)) REDIS_REPLY_STATUS ()
    (fun _r s1 ev => ⟨true, (), s1, ev⟩)

/-- Tail shared verbatim by expire and expire_at after CHECK_REPLY: an
    integer reply equal to 1 succeeds, any other integer records the key
    missing message (redis_client.cpp:81 and redis_client.cpp:95). -/
def expireFinish (r : RedisReply) (s1 : ClientState) (ev : List Event) : OpResult Unit :=
  if r.integer = 1 then ⟨true, (), s1, ev⟩
  else ⟨false, (),
        RedisClient.set_errmsg s1 (ErrMsg.keyMissingOrTimeoutNotSet r.integer), ev⟩

/-- Embeds RedisClient::expire (redis_client.cpp:76). -/
def RedisClient.expire (tr : Transport) (s : ClientState) (key : Bytes)
    (seconds : Nat) : OpResult Unit :=
  checkedOp (RedisClient.exec tr s (Cmd.expireCmd key seconds)) REDIS_REPLY_INTEGER ()
    expireFinish

/-- Embeds RedisClient::expire_at (redis_client.cpp:89). -/
def RedisClient.expire_at (tr : Transport) (s : ClientState) (key : Bytes)
    (expired_tm : Int) : OpResult Unit :=
  checkedOp (RedisClient.exec tr s (Cmd.expireAtCmd key expired_tm)) REDIS_REPLY_INTEGER ()
    expireFinish

/-- Embeds RedisClient::ttl (redis_client.cpp:103); ttl0 is the value held by
    the by-reference out parameter at entry. -/
def RedisClient.ttl (tr : Transport) (s : ClientState) (key : Bytes)
    (ttl0 : Int) : OpResult Int :=
  checkedOp (RedisClient.exec tr s (Cmd.ttlCmd key)) REDIS_REPLY_INTEGER ttl0
    (fun r s1 ev => ⟨true, r.integer, s1, ev⟩)

/-- Classification of the SET reply (redis_client.cpp:158): the tail of
    RedisClient::set after the six command variants were dispatched. -/
def setFinish (op_type : Int) (reply : Option RedisReply) (s1 : ClientState)
    (ev : List Event) : OpResult Unit :=
  match reply with
  | none => ⟨false, (), s1, ev⟩
  | some r =>
    if r.ty = REDIS_REPLY_STATUS then ⟨true, (), s1, ev⟩
    else if r.ty = REDIS_REPLY_NIL then
      ⟨false, (),
       RedisClient.set_errmsg s1 (ErrMsg.setOpErr (kSetOpErrMsg.getD op_type.toNat "")), ev⟩
    else if r.ty = REDIS_REPLY_ERROR then
      ⟨false, (), RedisClient.set_errmsg s1 (ErrMsg.fromReplyStr r.str), ev⟩
    else
      ⟨false, (), RedisClient.set_errmsg s1 (ErrMsg.unexpectedReplyType r.ty), ev⟩

/-- Embeds RedisClient::set (redis_client.cpp:111).  The ExpirationTime
    argument is represented by the value its remaining_seconds() method
    returns at the call (the only way the source reads it); none models a
    NULL pointer.  SetOpType is the underlying C++ enum integer with
    kSetAnyhow = 0, kSetIfNotExist = 1, kSetIfExist = 2; any other integer
    reaches the default branch, which records an error, leaves the reply
    NULL and falls through to the no-reply return. -/
def RedisClient.set (tr : Transport) (s : ClientState) (key val : Bytes)
    (expire_tm : Option Int) (op_type : Int) : OpResult Unit :=
  match expire_tm with
  | some rem =>
    if rem ≤ 0 then
      ⟨false, (), RedisClient.set_errmsg s ErrMsg.invalidExpireTime, []⟩
    else if op_type = 0 then
      match RedisClient.exec tr s (Cmd.setCmd key val (some rem) SetCond.plain) with
      | (reply, s1, ev) => setFinish op_type reply s1 ev
    else if op_type = 1 then
      match RedisClient.exec tr s (Cmd.setCmd key val (some rem) SetCond.nx) with
      | (reply, s1, ev) => setFinish op_type reply s1 ev
    else if op_type = 2 then
      match RedisClient.exec tr s (Cmd.setCmd key val (some rem) SetCond.xx) with
      | (reply, s1, ev) => setFinish op_type reply s1 ev
    else
      ⟨false, (), RedisClient.set_errmsg s (ErrMsg.unsupportedOpType op_type), []⟩
  | none =>
    if op_type = 0 then
      match RedisClient.exec tr s (Cmd.setCmd key val none SetCond.plain) with
      | (reply, s1, ev) => setFinish op_type reply s1 ev
    else if op_type = 1 then
      match RedisClient.exec tr s (Cmd.setCmd key val none SetCond.nx) with
      | (reply, s1, ev) => setFinish op_type reply s1 ev
    else if op_type = 2 then
      match RedisClient.exec tr s (Cmd.setCmd key val none SetCond.xx) with
      | (reply, s1, ev) => setFinish op_type reply s1 ev
    else
      ⟨false, (), RedisClient.set_errmsg s (ErrMsg.unsupportedOpType op_type), []⟩

/-- Embeds RedisClient::get (redis_client.cpp:177); val0 and ke0 are the
    values of the by-reference val and of the cell the key_exists pointer
    points at when entering the call (ke0 = none models a NULL pointer). -/
def RedisClient.get (tr : Transport) (s : ClientState) (key : Bytes)
    (val0 : Bytes) (ke0 : Option Bool) : OpResult (Bytes × Option Bool) :=
  match RedisClient.exec tr s (Cmd.getCmd key) with
  | (none, s1, ev) => ⟨false, (val0, ke0), s1, ev⟩
  | (some r, s1, ev) =>
    if r.ty = REDIS_REPLY_STRING then
      ⟨true, (binStr r, ke0.map (fun _ => true)), s1, ev⟩
    else if r.ty = REDIS_REPLY_NIL then
      ⟨true, ([], ke0.map (fun _ => false)), s1, ev⟩
    else if r.ty = REDIS_REPLY_ERROR then
      ⟨false, (val0, ke0), RedisClient.set_errmsg s1 (ErrMsg.fromReplyStr r.str), ev⟩
    else
      ⟨false, (val0, ke0), RedisClient.set_errmsg s1 (ErrMsg.unexpectedReplyType r.ty), ev⟩

/-- Embeds RedisClient::sadd (redis_client.cpp:206); cnt0 = none models a
    NULL cnt pointer. -/
def RedisClient.sadd (tr : Transport) (s : ClientState) (key : Bytes)
    (vals : List Bytes) (cnt0 : Option Int) : OpResult (Option Int) :=
  checkedOp (RedisClient.execv tr s (Cmd.saddCmd key vals)) REDIS_REPLY_INTEGER cnt0
    (fun r s1 ev => ⟨true, cnt0.map (fun _ => r.integer), s1, ev⟩)

/-- Embeds RedisClient::scard (redis_client.cpp:216). -/
def RedisClient.scard (tr : Transport) (s : ClientState) (key : Bytes)
    (cnt0 : Int) : OpResult Int :=
  checkedOp (RedisClient.exec tr s (Cmd.scardCmd key)) REDIS_REPLY_INTEGER cnt0
    (fun r s1 ev => ⟨true, r.integer, s1, ev⟩)

/-- Embeds RedisClient::arr_reply_to_vector (redis_client.cpp:350): clear the
    result and refill it with std::string(str, len) of every element. -/
def arr_reply_to_vector (elems : List RedisReply) : List Bytes :=
  elems.map binStr

/-- Embeds RedisClient::sdiff (redis_client.cpp:224). -/
def RedisClient.sdiff (tr : Transport) (s : ClientState) (keys : List Bytes)
    (result0 : List Bytes) : OpResult (List Bytes) :=
  checkedOp (RedisClient.execv tr s (Cmd.sdiffCmd keys)) REDIS_REPLY_ARRAY result0
    (fun r s1 ev => ⟨true, arr_reply_to_vector r.element, s1, ev⟩)

/-- Embeds RedisClient::sdiff_store (redis_client.cpp:232). -/
def RedisClient.sdiff_store (tr : Transport) (s : ClientState) (dest : Bytes)
    (keys : List Bytes) (cnt0 : Option Int) : OpResult (Option Int) :=
  checkedOp (RedisClient.execv tr s (Cmd.sdiffStoreCmd dest keys)) REDIS_REPLY_INTEGER cnt0
    (fun r s1 ev => ⟨true, cnt0.map (fun _ => r.integer), s1, ev⟩)

/-- Embeds RedisClient::sinter (redis_client.cpp:242). -/
def RedisClient.sinter (tr : Transport) (s : ClientState) (keys : List Bytes)
    (result0 : List Bytes) : OpResult (List Bytes) :=
  checkedOp (RedisClient.execv tr s (Cmd.sinterCmd keys)) REDIS_REPLY_ARRAY result0
    (fun r s1 ev => ⟨true, arr_reply_to_vector r.element, s1, ev⟩)

/-- Embeds RedisClient::sinter_store (redis_client.cpp:250). -/
def RedisClient.sinter_store (tr : Transport) (s : ClientState) (dest : Bytes)
    (keys : List Bytes) (cnt0 : Option Int) : OpResult (Option Int) :=
  checkedOp (RedisClient.execv tr s (Cmd.sinterStoreCmd dest keys)) REDIS_REPLY_INTEGER cnt0
    (fun r s1 ev => ⟨true, cnt0.map (fun _ => r.integer), s1, ev⟩)

/-- Embeds RedisClient::sismember (redis_client.cpp:260); is_member receives
    the C++ bool conversion of reply->integer. -/
def RedisClient.sismember (tr : Transport) (s : ClientState) (key val : Bytes)
    (m0 : Bool) : OpResult Bool :=
  checkedOp (RedisClient.exec tr s (Cmd.sismemberCmd key val)) REDIS_REPLY_INTEGER m0
    (fun r s1 ev => ⟨true, decide (r.integer ≠ 0), s1, ev⟩)

/-- Embeds the field filling loop of RedisClient::hget (redis_client.cpp:282):
    walk the fields in map iteration order against the reply elements
    positionally; a String element is assigned through its char pointer
    (null-terminated read), a Nil element assigns the empty string.  The
    error branches read str and type of the OUTER array reply (oStr, oTy),
    exactly as the source does. -/
def hmgetFill (oStr : Option Bytes) (oTy : Int) :
    List (Bytes × Bytes) → List RedisReply →
    Bool × List (Bytes × Bytes) × Option ErrMsg
  | [], _ => (true, [], none)
  | f :: fs, [] => (true, f :: fs, none)
  | f :: fs, r :: rs =>
    if r.ty = REDIS_REPLY_STRING then
      match hmgetFill oStr oTy fs rs with
      | (ok2, rest, e) => (ok2, (f.1, cstr r.str) :: rest, e)
    else if r.ty = REDIS_REPLY_NIL then
      match hmgetFill oStr oTy fs rs with
      | (ok2, rest, e) => (ok2, (f.1, []) :: rest, e)
    else if r.ty = REDIS_REPLY_ERROR then
      (false, f :: fs, some (ErrMsg.fromReplyStr oStr))
    else
      (false, f :: fs, some (ErrMsg.unexpectedReplyType oTy))

/-- Embeds RedisClient::hget (redis_client.cpp:271).  The std::map of fields
    is represented as its entry list in map iteration order (keys strictly
    increasing lexicographically); the out value is the final contents of the
    by-reference map. -/
def RedisClient.hget (tr : Transport) (s : ClientState) (key : Bytes)
    (fields : List (Bytes × Bytes)) : OpResult (List (Bytes × Bytes)) :=
  checkedOp (RedisClient.execm tr s (Cmd.hmgetCmd key (fields.map Prod.fst)))
    REDIS_REPLY_ARRAY fields
    (fun r s1 ev =>
      if r.elements ≠ fields.length then
        ⟨false, fields,
         RedisClient.set_errmsg s1 (ErrMsg.invalidNumElements fields.length r.elements), ev⟩
      else
        match hmgetFill r.str r.ty fields r.element with
        | (ok2, fields2, e) => ⟨ok2, fields2, setErrOpt s1 e, ev⟩)

/-- Embeds RedisClient::hset (redis_client.cpp:304). -/
def RedisClient.hset (tr : Transport) (s : ClientState) (key : Bytes)
    (fields : List (Bytes × Bytes)) : OpResult Unit :=
  checkedOp (RedisClient.execm tr s (Cmd.hmsetCmd key fields)) REDIS_REPLY_STATUS ()
    (fun _r s1 ev => ⟨true, (), s1, ev⟩)

/-- Index of the last occurrence of a character (std::string::find_last_of). -/
def lastIdxOf (c : Char) : List Char → Option Nat
  | [] => none
  | x :: xs =>
    match lastIdxOf c xs with
    | some i => some (i + 1)
    | none => if x = c then some 0 else none

/-- Accumulate decimal digits (helper for atoi). -/
def digitsVal : List Char → Nat → Nat
  | [], acc => acc
  | c :: rest, acc =>
    if c.isDigit then digitsVal rest (acc * 10 + (c.toNat - 48)) else acc

/-- Model of the libc atoi used at redis_client.cpp:38: skip leading blanks,
    accept an optional sign, read leading decimal digits, 0 when none. -/
def atoi (cs : List Char) : Int :=
  let cs2 := cs.dropWhile (fun c => c == ' ' || c == '\t')
  match cs2 with
  | '-' :: rest => -(digitsVal rest 0 : Int)
  | '+' :: rest => (digitsVal rest 0 : Int)
  | _ => (digitsVal cs2 0 : Int)

/-- Final step of the constructor: call alloc_context on the parsed state,
    ignoring its result (redis_client.cpp:46). -/
def constructFinish (tr : Transport) (s : ClientState) :
    Option (ClientState × Bool × List Event) :=
  match RedisClient.alloc_context tr s with
  | (ok, s2, ev) => some (s2, ok, ev)

/-- Embeds the constructor RedisClient::RedisClient (redis_client.cpp:26):
    split the address at the last colon, default the port to 6379 when
    nothing follows the colon, throw (modelled as none) on a missing colon or
    a port outside 1..65535, then call alloc_context ignoring its result.
    Returns the constructed state, the alloc_context result, and the
    transport events emitted during construction. -/
def RedisClient.construct (tr : Transport) (ip_port : String) :
    Option (ClientState × Bool × List Event) :=
  let cs := ip_port.toList
  match lastIdxOf ':' cs with
  | none => none
  | some pos =>
    let s0 : ClientState :=
      { m_ip_port := ip_port, m_ip := String.mk (cs.take pos), m_port := 0,
        m_context := none, m_errmsg := none }
    if pos + 1 < cs.length then
      let port := atoi (cs.drop (pos + 1))
      if port ≤ 0 ∨ 65535 < port then none
      else constructFinish tr { s0 with m_port := port }
    else constructFinish tr { s0 with m_port := 6379 }

/-- The connection state invariant of the spec: a held handle always came
    from a successful connect (err == 0). -/
def ctxInv (s : ClientState) : Prop :=
  ∀ c, s.m_context = some c → c.err = 0

/-- A context handle as produced by a successful connect. -/
def ctx0 : RedisContext := ⟨0, ""⟩

/-- A client state holding a live connection to 127.0.0.1:6379. -/
def sConn : ClientState :=
  ⟨"127.0.0.1:6379", "127.0.0.1", 6379, some ctx0, none⟩

/-- A client state with no handle held. -/
def sInit : ClientState :=
  ⟨"127.0.0.1:6379", "127.0.0.1", 6379, none, none⟩

/-- A transport whose connect and every command fail. -/
def trFail : Transport := ⟨none, fun _ => none, 0, ""⟩

/-- A transport with a working connect that answers every command with the
    same fixed reply. -/
def trConst (r : RedisReply) : Transport := ⟨some ctx0, fun _ => some r, 0, ""⟩

/-! Helper lemmas about the shared transport path. -/

theorem alloc_context_shape (tr : Transport) (s : ClientState) :
    (RedisClient.alloc_context tr s).2.2 = [Event.connectAttempt s.m_ip s.m_port] ∧
    ((RedisClient.alloc_context tr s).2.1).m_ip = s.m_ip ∧
    ((RedisClient.alloc_context tr s).2.1).m_port = s.m_port := by
  rcases hcon : tr.connect with _ | c
  · simp [RedisClient.alloc_context, hcon, RedisClient.set_errmsg]
  · by_cases he : c.err = 0 <;>
      simp [RedisClient.alloc_context, hcon, he, RedisClient.free_context,
            RedisClient.set_errmsg]

theorem exec_allfail (tr : Transport) (h : ∀ c, tr.run c = none) (s : ClientState)
    (cmd : Cmd) :
    (RedisClient.exec tr s cmd).1 = none ∧
    ((RedisClient.exec tr s cmd).2.1).m_context = none := by
  rcases hctx : s.m_context with _ | c
  · rcases hcon : tr.connect with _ | c2
    · simp [RedisClient.exec, RedisClient.alloc_context, hctx, hcon,
            RedisClient.set_errmsg]
    · by_cases he : c2.err = 0 <;>
        simp [RedisClient.exec, RedisClient.alloc_context, hctx, hcon, he, h,
              RedisClient.free_context, RedisClient.set_errmsg]
  · simp [RedisClient.exec, hctx, h, RedisClient.free_context, RedisClient.set_errmsg]

theorem exec_none_clears (tr : Transport) (s : ClientState) (cmd : Cmd)
    (h : (RedisClient.exec tr s cmd).1 = none) :
    ((RedisClient.exec tr s cmd).2.1).m_context = none := by
  rcases hctx : s.m_context with _ | c
  · rcases hcon : tr.connect with _ | c2
    · simp [RedisClient.exec, RedisClient.alloc_context, hctx, hcon,
            RedisClient.set_errmsg]
    · by_cases he : c2.err = 0
      · rcases hrun : tr.run cmd with _ | r
        · simp [RedisClient.exec, RedisClient.alloc_context, hctx, hcon, he, hrun,
                RedisClient.free_context, RedisClient.set_errmsg]
        · simp [RedisClient.exec, RedisClient.alloc_context, hctx, hcon, he, hrun] at h
      · simp [RedisClient.exec, RedisClient.alloc_context, hctx, hcon, he,
              RedisClient.free_context, RedisClient.set_errmsg]
  · rcases hrun : tr.run cmd with _ | r
    · simp [RedisClient.exec, hctx, hrun, RedisClient.free_context,
            RedisClient.set_errmsg]
    · simp [RedisClient.exec, hctx, hrun] at h

theorem exec_ctxInv (tr : Transport) (s : ClientState) (cmd : Cmd)
    (hs : ctxInv s) : ctxInv (RedisClient.exec tr s cmd).2.1 := by
  rcases hctx : s.m_context with _ | c
  · rcases hcon : tr.connect with _ | c2
    · intro c' hc'
      simp [RedisClient.exec, RedisClient.alloc_context, hctx, hcon,
            RedisClient.set_errmsg] at hc'
    · by_cases he : c2.err = 0
      · rcases hrun : tr.run cmd with _ | r
        · intro c' hc'
          simp [RedisClient.exec, RedisClient.alloc_context, hctx, hcon, he, hrun,
                RedisClient.free_context, RedisClient.set_errmsg] at hc'
        · intro c' hc'
          simp [RedisClient.exec, RedisClient.alloc_context, hctx, hcon, he, hrun,
                RedisClient.set_errmsg] at hc'
          rw [← hc']
          exact he
      · intro c' hc'
        simp [RedisClient.exec, RedisClient.alloc_context, hctx, hcon, he,
              RedisClient.free_context, RedisClient.set_errmsg] at hc'
  · rcases hrun : tr.run cmd with _ | r
    · intro c' hc'
      simp [RedisClient.exec, hctx, hrun, RedisClient.free_context,
            RedisClient.set_errmsg] at hc'
    · intro c' hc'
      have hbase := hs c hctx
      simp [RedisClient.exec, hctx, hrun] at hc'
      rw [← hc']
      exact hbase

theorem exec_reconnect (tr : Transport) (s : ClientState) (cmd : Cmd)
    (h : s.m_context = none) :
    Event.connectAttempt s.m_ip s.m_port ∈ (RedisClient.exec tr s cmd).2.2 := by
  rcases hcon : tr.connect with _ | c
  · simp [RedisClient.exec, RedisClient.alloc_context, h, hcon, RedisClient.set_errmsg]
  · by_cases he : c.err = 0
    · rcases hrun : tr.run cmd with _ | r <;>
        simp [RedisClient.exec, RedisClient.alloc_context, h, hcon, he, hrun,
              RedisClient.free_context, RedisClient.set_errmsg]
    · simp [RedisClient.exec, RedisClient.alloc_context, h, hcon, he,
            RedisClient.free_context, RedisClient.set_errmsg]

theorem checkedOp_allfail {α : Type} (tr : Transport) (h : ∀ c, tr.run c = none)
    (s : ClientState) (cmd : Cmd) (expected : Int) (out0 : α)
    (tail : RedisReply → ClientState → List Event → OpResult α) :
    (checkedOp (RedisClient.exec tr s cmd) expected out0 tail).ok = false ∧
    ((checkedOp (RedisClient.exec tr s cmd) expected out0 tail).state).m_context = none := by
  obtain ⟨h1, h2⟩ := exec_allfail tr h s cmd
  rcases hE : RedisClient.exec tr s cmd with ⟨reply, s1, ev⟩
  rw [hE] at h1 h2
  simp only at h1 h2
  subst h1
  simpa [checkedOp, checkReply, setErrOpt] using h2

theorem checkedOp_frame {α : Type} (e : Option RedisReply × ClientState × List Event)
    (expected : Int) (out0 : α)
    (tail : RedisReply → ClientState → List Event → OpResult α)
    (htail : ∀ r s1 ev, (tail r s1 ev).ok = true) :
    (checkedOp e expected out0 tail).ok = false →
    (checkedOp e expected out0 tail).out = out0 := by
  rcases e with ⟨reply, s1, ev⟩
  cases hC : checkReply reply expected with
  | fail em => simp [checkedOp, hC]
  | ok r =>
    intro h
    rw [checkedOp] at h
    simp only [hC] at h
    rw [htail] at h
    cases h

theorem constructFinish_events (tr : Transport) (s : ClientState)
    (out : ClientState × Bool × List Event)
    (h : constructFinish tr s = some out) :
    out.2.2 = [Event.connectAttempt out.1.m_ip out.1.m_port] := by
  obtain ⟨hev, hip, hport⟩ := alloc_context_shape tr s
  rcases hA : RedisClient.alloc_context tr s with ⟨ok, s2, ev⟩
  rw [hA] at hev hip hport
  simp only at hev hip hport
  rw [constructFinish, hA] at h
  simp only [Option.some.injEq] at h
  subst h
  simp only
  rw [hip, hport]
  exact hev

/-- C1 (counterexample): constructing a client from the valid address
    string 127.0.0.1:6379 DOES make a connection attempt before the
    constructor returns: the construction event trace is exactly one
    connect attempt, contradicting the claim that no call to the
    transport connect has been made. -/
theorem construct_attempts_connection :
    RedisClient.construct (trConst (RedisReply.mk REDIS_REPLY_STATUS 0 none []))
        "127.0.0.1:6379" =
      some (⟨"127.0.0.1:6379", "127.0.0.1", 6379, some ctx0, none⟩, true,
            [Event.connectAttempt "127.0.0.1" 6379]) := by
  decide

/-- C1 (amended): constructing a client from an address string parses the
    address and immediately makes exactly one connection attempt (the
    constructor calls alloc_context); whenever construction succeeds, the
    event trace of the constructor is exactly one connect attempt at the
    parsed host and port. -/
theorem construct_connects_exactly_once (tr : Transport) (ip_port : String)
    (out : ClientState × Bool × List Event)
    (h : RedisClient.construct tr ip_port = some out) :
    out.2.2 = [Event.connectAttempt out.1.m_ip out.1.m_port] := by
  simp only [RedisClient.construct] at h
  split at h
  · cases h
  · split at h
    · split at h
      · cases h
      · exact constructFinish_events _ _ _ h
    · exact constructFinish_events _ _ _ h

/-- Witness for C1 (amended) at a concrete valid address and a transport
    whose connect succeeds. -/
theorem construct_connects_exactly_once_witness :
    RedisClient.construct (trConst (RedisReply.mk REDIS_REPLY_STATUS 0 none []))
        "10.0.0.1:7000" =
      some (⟨"10.0.0.1:7000", "10.0.0.1", 7000, some ctx0, none⟩, true,
            [Event.connectAttempt "10.0.0.1" 7000]) ∧
    [Event.connectAttempt "10.0.0.1" 7000] =
      [Event.connectAttempt
        (⟨"10.0.0.1:7000", "10.0.0.1", 7000, some ctx0, none⟩ : ClientState).m_ip
        (⟨"10.0.0.1:7000", "10.0.0.1", 7000, some ctx0, none⟩ : ClientState).m_port] :=
  ⟨by decide,
   construct_connects_exactly_once
     (trConst (RedisReply.mk REDIS_REPLY_STATUS 0 none [])) "10.0.0.1:7000"
     (⟨"10.0.0.1:7000", "10.0.0.1", 7000, some ctx0, none⟩, true,
      [Event.connectAttempt "10.0.0.1" 7000]) (by decide)⟩

/-- C6 (counterexample): an expire call whose seconds value corresponds to a
    non-positive remaining time (0 seconds) is NOT rejected by input
    validation: the EXPIRE command is sent to the transport, and with an
    integer 1 reply the call even returns true. -/
theorem expire_zero_seconds_reaches_transport :
    (RedisClient.expire (trConst (RedisReply.mk REDIS_REPLY_INTEGER 1 none []))
        sConn [107] 0).events = [Event.command (Cmd.expireCmd [107] 0)] ∧
    (RedisClient.expire (trConst (RedisReply.mk REDIS_REPLY_INTEGER 1 none []))
        sConn [107] 0).ok = true := by
  decide

/-- C6 (amended): for every set call with an ExpirationTime whose
    remaining_seconds() is non-positive, the call fails input validation and
    returns false with the invalid expire time message before any transport
    call is made (the event trace is empty); expire performs no such
    validation because it takes a raw unsigned seconds count. -/
theorem set_nonpositive_expire_fails_validation (tr : Transport) (s : ClientState)
    (key val : Bytes) (op_type : Int) (rem : Int) (h : rem ≤ 0) :
    RedisClient.set tr s key val (some rem) op_type =
      ⟨false, (), RedisClient.set_errmsg s ErrMsg.invalidExpireTime, []⟩ := by
  simp [RedisClient.set, h]

/-- Witness for C6 (amended) at remaining time 0. -/
theorem set_nonpositive_expire_fails_validation_witness :
    (0 : Int) ≤ 0 ∧
    RedisClient.set trFail sConn [107] [118] (some 0) 0 =
      ⟨false, (), RedisClient.set_errmsg sConn ErrMsg.invalidExpireTime, []⟩ :=
  ⟨by decide, set_nonpositive_expire_fails_validation trFail sConn [107] [118] 0 0 (by decide)⟩

/-- C8: a set call whose op_type is not one of the three recognized
    SetOpType values returns false with the unsupported op_type error message
    recorded and sends no command to the transport (empty event trace),
    regardless of the expiration argument passing its own validation. -/
theorem set_unsupported_op_type_rejected (tr : Transport) (s : ClientState)
    (key val : Bytes) (ex : Option Int) (op_type : Int)
    (hop : ¬(op_type = 0 ∨ op_type = 1 ∨ op_type = 2))
    (hex : ex = none ∨ ∃ v, ex = some v ∧ 0 < v) :
    RedisClient.set tr s key val ex op_type =
      ⟨false, (), RedisClient.set_errmsg s (ErrMsg.unsupportedOpType op_type), []⟩ := by
  push_neg at hop
  rcases hex with rfl | ⟨v, rfl, hv⟩
  · simp [RedisClient.set, hop.1, hop.2.1, hop.2.2]
  · simp [RedisClient.set, hop.1, hop.2.1, hop.2.2, hv.not_le]

/-- Witness for C8 at op_type 3, with and without an expiration. -/
theorem set_unsupported_op_type_rejected_witness :
    RedisClient.set trFail sConn [107] [118] none 3 =
      ⟨false, (), RedisClient.set_errmsg sConn (ErrMsg.unsupportedOpType 3), []⟩ :=
  set_unsupported_op_type_rejected trFail sConn [107] [118] none 3 (by decide) (Or.inl rfl)

/-- C2: for every operation, a transport failure (NULL reply from exec, or a
    failed connect) leaves the connection handle released and cleared when the
    operation returns false; the state invariant that a held handle always
    came from a successful connect is preserved by the shared exec path; and
    an operation entered without a handle re-attempts a fresh connection.
    Stated as: (1) a NULL exec reply implies the handle is cleared, (2) exec
    preserves the handle invariant, (3) exec without a handle emits a connect
    attempt, (4) under a transport whose every command fails, every public
    operation returns false with the handle cleared. -/
theorem transport_failure_releases_handle :
    (∀ tr s cmd, (RedisClient.exec tr s cmd).1 = none →
        ((RedisClient.exec tr s cmd).2.1).m_context = none)
  ∧ (∀ tr s cmd, ctxInv s → ctxInv (RedisClient.exec tr s cmd).2.1)
  ∧ (∀ tr s cmd, s.m_context = none →
        Event.connectAttempt s.m_ip s.m_port ∈ (RedisClient.exec tr s cmd).2.2)
  ∧ (∀ tr, (∀ c, tr.run c = none) →
        (∀ s key val0 ke0,
            (RedisClient.get tr s key val0 ke0).ok = false ∧
            ((RedisClient.get tr s key val0 ke0).state).m_context = none)
      ∧ (∀ s dbidx,
            (RedisClient.select_db tr s dbidx).ok = false ∧
            ((RedisClient.select_db tr s dbidx).state).m_context = none)
      ∧ (∀ s key seconds,
            (RedisClient.expire tr s key seconds).ok = false ∧
            ((RedisClient.expire tr s key seconds).state).m_context = none)
      ∧ (∀ s key t,
            (RedisClient.expire_at tr s key t).ok = false ∧
            ((RedisClient.expire_at tr s key t).state).m_context = none)
      ∧ (∀ s key t0,
            (RedisClient.ttl tr s key t0).ok = false ∧
            ((RedisClient.ttl tr s key t0).state).m_context = none)
      ∧ (∀ s key val ex op, (op = 0 ∨ op = 1 ∨ op = 2) →
            (ex = none ∨ ∃ v, ex = some v ∧ 0 < v) →
            (RedisClient.set tr s key val ex op).ok = false ∧
            ((RedisClient.set tr s key val ex op).state).m_context = none)
      ∧ (∀ s key vals cnt0,
            (RedisClient.sadd tr s key vals cnt0).ok = false ∧
            ((RedisClient.sadd tr s key vals cnt0).state).m_context = none)
      ∧ (∀ s key cnt0,
            (RedisClient.scard tr s key cnt0).ok = false ∧
            ((RedisClient.scard tr s key cnt0).state).m_context = none)
      ∧ (∀ s keys r0,
            (RedisClient.sdiff tr s keys r0).ok = false ∧
            ((RedisClient.sdiff tr s keys r0).state).m_context = none)
      ∧ (∀ s dest keys cnt0,
            (RedisClient.sdiff_store tr s dest keys cnt0).ok = false ∧
            ((RedisClient.sdiff_store tr s dest keys cnt0).state).m_context = none)
      ∧ (∀ s keys r0,
            (RedisClient.sinter tr s keys r0).ok = false ∧
            ((RedisClient.sinter tr s keys r0).state).m_context = none)
      ∧ (∀ s dest keys cnt0,
            (RedisClient.sinter_store tr s dest keys cnt0).ok = false ∧
            ((RedisClient.sinter_store tr s dest keys cnt0).state).m_context = none)
      ∧ (∀ s key val m0,
            (RedisClient.sismember tr s key val m0).ok = false ∧
            ((RedisClient.sismember tr s key val m0).state).m_context = none)
      ∧ (∀ s key fields,
            (RedisClient.hget tr s key fields).ok = false ∧
            ((RedisClient.hget tr s key fields).state).m_context = none)
      ∧ (∀ s key fields,
            (RedisClient.hset tr s key fields).ok = false ∧
            ((RedisClient.hset tr s key fields).state).m_context = none)) := by
  refine ⟨exec_none_clears, exec_ctxInv, exec_reconnect, ?_⟩
  intro tr h
  refine ⟨?_, ?_, ?_, ?_, ?_, ?_, ?_, ?_, ?_, ?_, ?_, ?_, ?_, ?_, ?_⟩
  · intro s key val0 ke0
    obtain ⟨h1, h2⟩ := exec_allfail tr h s (Cmd.getCmd key)
    rcases hE : RedisClient.exec tr s (Cmd.getCmd key) with ⟨reply, s1, ev⟩
    rw [hE] at h1 h2
    simp only at h1 h2
    subst h1
    simp [RedisClient.get, hE, h2]
  · intro s dbidx
    exact checkedOp_allfail tr h s (Cmd.selectDb dbidx) REDIS_REPLY_STATUS () _
  · intro s key seconds
    exact checkedOp_allfail tr h s (Cmd.expireCmd key seconds) REDIS_REPLY_INTEGER () _
  · intro s key t
    exact checkedOp_allfail tr h s (Cmd.expireAtCmd key t) REDIS_REPLY_INTEGER () _
  · intro s key t0
    exact checkedOp_allfail tr h s (Cmd.ttlCmd key) REDIS_REPLY_INTEGER t0 _
  · intro s key val ex op hop hex
    rcases hop with rfl | rfl | rfl <;> rcases hex with rfl | ⟨v, rfl, hv⟩
    · obtain ⟨h1, h2⟩ := exec_allfail tr h s (Cmd.setCmd key val none SetCond.plain)
      rcases hE : RedisClient.exec tr s (Cmd.setCmd key val none SetCond.plain)
        with ⟨reply, s1, ev⟩
      rw [hE] at h1 h2
      simp only at h1 h2
      subst h1
      simp [RedisClient.set, hE, setFinish, h2]
    · obtain ⟨h1, h2⟩ := exec_allfail tr h s (Cmd.setCmd key val (some v) SetCond.plain)
      rcases hE : RedisClient.exec tr s (Cmd.setCmd key val (some v) SetCond.plain)
        with ⟨reply, s1, ev⟩
      rw [hE] at h1 h2
      simp only at h1 h2
      subst h1
      simp [RedisClient.set, hE, setFinish, h2, hv.not_le]
    · obtain ⟨h1, h2⟩ := exec_allfail tr h s (Cmd.setCmd key val none SetCond.nx)
      rcases hE : RedisClient.exec tr s (Cmd.setCmd key val none SetCond.nx)
        with ⟨reply, s1, ev⟩
      rw [hE] at h1 h2
      simp only at h1 h2
      subst h1
      simp [RedisClient.set, hE, setFinish, h2]
    · obtain ⟨h1, h2⟩ := exec_allfail tr h s (Cmd.setCmd key val (some v) SetCond.nx)
      rcases hE : RedisClient.exec tr s (Cmd.setCmd key val (some v) SetCond.nx)
        with ⟨reply, s1, ev⟩
      rw [hE] at h1 h2
      simp only at h1 h2
      subst h1
      simp [RedisClient.set, hE, setFinish, h2, hv.not_le]
    · obtain ⟨h1, h2⟩ := exec_allfail tr h s (Cmd.setCmd key val none SetCond.xx)
      rcases hE : RedisClient.exec tr s (Cmd.setCmd key val none SetCond.xx)
        with ⟨reply, s1, ev⟩
      rw [hE] at h1 h2
      simp only at h1 h2
      subst h1
      simp [RedisClient.set, hE, setFinish, h2]
    · obtain ⟨h1, h2⟩ := exec_allfail tr h s (Cmd.setCmd key val (some v) SetCond.xx)
      rcases hE : RedisClient.exec tr s (Cmd.setCmd key val (some v) SetCond.xx)
        with ⟨reply, s1, ev⟩
      rw [hE] at h1 h2
      simp only at h1 h2
      subst h1
      simp [RedisClient.set, hE, setFinish, h2, hv.not_le]
  · intro s key vals cnt0
    exact checkedOp_allfail tr h s (Cmd.saddCmd key vals) REDIS_REPLY_INTEGER cnt0 _
  · intro s key cnt0
    exact checkedOp_allfail tr h s (Cmd.scardCmd key) REDIS_REPLY_INTEGER cnt0 _
  · intro s keys r0
    exact checkedOp_allfail tr h s (Cmd.sdiffCmd keys) REDIS_REPLY_ARRAY r0 _
  · intro s dest keys cnt0
    exact checkedOp_allfail tr h s (Cmd.sdiffStoreCmd dest keys) REDIS_REPLY_INTEGER cnt0 _
  · intro s keys r0
    exact checkedOp_allfail tr h s (Cmd.sinterCmd keys) REDIS_REPLY_ARRAY r0 _
  · intro s dest keys cnt0
    exact checkedOp_allfail tr h s (Cmd.sinterStoreCmd dest keys) REDIS_REPLY_INTEGER cnt0 _
  · intro s key val m0
    exact checkedOp_allfail tr h s (Cmd.sismemberCmd key val) REDIS_REPLY_INTEGER m0 _
  · intro s key fields
    exact checkedOp_allfail tr h s (Cmd.hmgetCmd key (fields.map Prod.fst))
      REDIS_REPLY_ARRAY fields _
  · intro s key fields
    exact checkedOp_allfail tr h s (Cmd.hmsetCmd key fields) REDIS_REPLY_STATUS () _

/-- Witness for C2: a concrete get against a transport whose connect and
    commands all fail returns false with the handle cleared. -/
theorem transport_failure_releases_handle_witness :
    (RedisClient.get trFail sInit [107] [] none).ok = false ∧
    ((RedisClient.get trFail sInit [107] [] none).state).m_context = none :=
  (transport_failure_releases_handle.2.2.2 trFail (fun _ => rfl)).1 sInit [107] [] none

/-- C10: whenever one of get, ttl, scard, sismember, sadd, sdiff,
    sdiff_store, sinter and sinter_store returns false, every by-reference or
    pointer output parameter still holds the value it had at entry; hget is
    the exception and can partially update the fields map before failing,
    witnessed by a concrete reply holding a String element before an Error
    element. -/
theorem failed_ops_leave_outputs_unchanged :
    (∀ tr s key val0 ke0, (RedisClient.get tr s key val0 ke0).ok = false →
        (RedisClient.get tr s key val0 ke0).out = (val0, ke0))
  ∧ (∀ tr s key t0, (RedisClient.ttl tr s key t0).ok = false →
        (RedisClient.ttl tr s key t0).out = t0)
  ∧ (∀ tr s key cnt0, (RedisClient.scard tr s key cnt0).ok = false →
        (RedisClient.scard tr s key cnt0).out = cnt0)
  ∧ (∀ tr s key val m0, (RedisClient.sismember tr s key val m0).ok = false →
        (RedisClient.sismember tr s key val m0).out = m0)
  ∧ (∀ tr s key vals cnt0, (RedisClient.sadd tr s key vals cnt0).ok = false →
        (RedisClient.sadd tr s key vals cnt0).out = cnt0)
  ∧ (∀ tr s keys r0, (RedisClient.sdiff tr s keys r0).ok = false →
        (RedisClient.sdiff tr s keys r0).out = r0)
  ∧ (∀ tr s dest keys cnt0, (RedisClient.sdiff_store tr s dest keys cnt0).ok = false →
        (RedisClient.sdiff_store tr s dest keys cnt0).out = cnt0)
  ∧ (∀ tr s keys r0, (RedisClient.sinter tr s keys r0).ok = false →
        (RedisClient.sinter tr s keys r0).out = r0)
  ∧ (∀ tr s dest keys cnt0, (RedisClient.sinter_store tr s dest keys cnt0).ok = false →
        (RedisClient.sinter_store tr s dest keys cnt0).out = cnt0)
  ∧ ((RedisClient.hget (trConst (RedisReply.mk REDIS_REPLY_ARRAY 0 none
        [RedisReply.mk REDIS_REPLY_STRING 0 (some [49]) [],
         RedisReply.mk REDIS_REPLY_ERROR 0 (some [98]) []]))
        sConn [104] [([97], []), ([98], [])]).ok = false
      ∧ (RedisClient.hget (trConst (RedisReply.mk REDIS_REPLY_ARRAY 0 none
          [RedisReply.mk REDIS_REPLY_STRING 0 (some [49]) [],
           RedisReply.mk REDIS_REPLY_ERROR 0 (some [98]) []]))
          sConn [104] [([97], []), ([98], [])]).out ≠ [([97], []), ([98], [])]) := by
  refine ⟨?_, ?_, ?_, ?_, ?_, ?_, ?_, ?_, ?_, by decide, by decide⟩
  · intro tr s key val0 ke0 hf
    rcases hE : RedisClient.exec tr s (Cmd.getCmd key) with ⟨reply, s1, ev⟩
    rcases reply with _ | r
    · simp [RedisClient.get, hE]
    · by_cases h1 : r.ty = REDIS_REPLY_STRING
      · simp [RedisClient.get, hE, h1] at hf
      · by_cases h2 : r.ty = REDIS_REPLY_NIL
        · simp [RedisClient.get, hE, h1, h2, REDIS_REPLY_NIL, REDIS_REPLY_STRING] at hf
        · by_cases h3 : r.ty = REDIS_REPLY_ERROR
          · simp [RedisClient.get, hE, h1, h2, h3, REDIS_REPLY_ERROR,
                  REDIS_REPLY_STRING, REDIS_REPLY_NIL]
          · simp [RedisClient.get, hE, h1, h2, h3]
  · intro tr s key t0
    exact checkedOp_frame (RedisClient.exec tr s (Cmd.ttlCmd key))
      REDIS_REPLY_INTEGER t0 _ (fun _ _ _ => rfl)
  · intro tr s key cnt0
    exact checkedOp_frame (RedisClient.exec tr s (Cmd.scardCmd key))
      REDIS_REPLY_INTEGER cnt0 _ (fun _ _ _ => rfl)
  · intro tr s key val m0
    exact checkedOp_frame (RedisClient.exec tr s (Cmd.sismemberCmd key val))
      REDIS_REPLY_INTEGER m0 _ (fun _ _ _ => rfl)
  · intro tr s key vals cnt0
    exact checkedOp_frame (RedisClient.exec tr s (Cmd.saddCmd key vals))
      REDIS_REPLY_INTEGER cnt0 _ (fun _ _ _ => rfl)
  · intro tr s keys r0
    exact checkedOp_frame (RedisClient.exec tr s (Cmd.sdiffCmd keys))
      REDIS_REPLY_ARRAY r0 _ (fun _ _ _ => rfl)
  · intro tr s dest keys cnt0
    exact checkedOp_frame (RedisClient.exec tr s (Cmd.sdiffStoreCmd dest keys))
      REDIS_REPLY_INTEGER cnt0 _ (fun _ _ _ => rfl)
  · intro tr s keys r0
    exact checkedOp_frame (RedisClient.exec tr s (Cmd.sinterCmd keys))
      REDIS_REPLY_ARRAY r0 _ (fun _ _ _ => rfl)
  · intro tr s dest keys cnt0
    exact checkedOp_frame (RedisClient.exec tr s (Cmd.sinterStoreCmd dest keys))
      REDIS_REPLY_INTEGER cnt0 _ (fun _ _ _ => rfl)

/-- Witness for C10: a concrete failed get leaves val and the key_exists
    cell unchanged. -/
theorem failed_ops_leave_outputs_unchanged_witness :
    (RedisClient.get trFail sInit [107] [1, 2] (some true)).ok = false ∧
    (RedisClient.get trFail sInit [107] [1, 2] (some true)).out = ([1, 2], some true) :=
  ⟨by decide,
   failed_ops_leave_outputs_unchanged.1 trFail sInit [107] [1, 2] (some true) (by decide)⟩

theorem setFinish_classify (op : Int) (r : RedisReply) (s1 : ClientState)
    (ev : List Event) :
    (r.ty = REDIS_REPLY_STATUS → (setFinish op (some r) s1 ev).ok = true)
  ∧ (r.ty = REDIS_REPLY_NIL → (setFinish op (some r) s1 ev).ok = false ∧
      ((setFinish op (some r) s1 ev).state).m_errmsg =
        some (ErrMsg.setOpErr (kSetOpErrMsg.getD op.toNat "")))
  ∧ (r.ty = REDIS_REPLY_ERROR → (setFinish op (some r) s1 ev).ok = false ∧
      ((setFinish op (some r) s1 ev).state).m_errmsg = some (ErrMsg.fromReplyStr r.str))
  ∧ (r.ty ≠ REDIS_REPLY_STATUS → r.ty ≠ REDIS_REPLY_NIL → r.ty ≠ REDIS_REPLY_ERROR →
      (setFinish op (some r) s1 ev).ok = false ∧
      ((setFinish op (some r) s1 ev).state).m_errmsg =
        some (ErrMsg.unexpectedReplyType r.ty)) := by
  refine ⟨?_, ?_, ?_, ?_⟩
  · intro hty
    simp [setFinish, hty]
  · intro hty
    simp [setFinish, hty, REDIS_REPLY_NIL, REDIS_REPLY_STATUS, RedisClient.set_errmsg]
  · intro hty
    simp [setFinish, hty, REDIS_REPLY_ERROR, REDIS_REPLY_STATUS, REDIS_REPLY_NIL,
          RedisClient.set_errmsg]
  · intro h1 h2 h3
    simp [setFinish, h1, h2, h3, RedisClient.set_errmsg]

theorem set_reduces (tr : Transport) (s : ClientState) (c : RedisContext)
    (key val : Bytes) (r : RedisReply) (op : Int) (ex : Option Int)
    (hctx : s.m_context = some c) (hrun : ∀ cmd, tr.run cmd = some r)
    (hop : op = 0 ∨ op = 1 ∨ op = 2)
    (hex : ex = none ∨ ∃ v, ex = some v ∧ 0 < v) :
    ∃ ev, RedisClient.set tr s key val ex op = setFinish op (some r) s ev := by
  rcases hop with rfl | rfl | rfl <;> rcases hex with rfl | ⟨v, rfl, hv⟩
  · exact ⟨[Event.command (Cmd.setCmd key val none SetCond.plain)],
      by simp [RedisClient.set, RedisClient.exec, hctx, hrun]⟩
  · exact ⟨[Event.command (Cmd.setCmd key val (some v) SetCond.plain)],
      by simp [RedisClient.set, RedisClient.exec, hctx, hrun, hv.not_le]⟩
  · exact ⟨[Event.command (Cmd.setCmd key val none SetCond.nx)],
      by simp [RedisClient.set, RedisClient.exec, hctx, hrun]⟩
  · exact ⟨[Event.command (Cmd.setCmd key val (some v) SetCond.nx)],
      by simp [RedisClient.set, RedisClient.exec, hctx, hrun, hv.not_le]⟩
  · exact ⟨[Event.command (Cmd.setCmd key val none SetCond.xx)],
      by simp [RedisClient.set, RedisClient.exec, hctx, hrun]⟩
  · exact ⟨[Event.command (Cmd.setCmd key val (some v) SetCond.xx)],
      by simp [RedisClient.set, RedisClient.exec, hctx, hrun, hv.not_le]⟩

/-- C3: with a live connection and a well formed call (valid SetOpType,
    expiration passing validation), set classifies the transport reply
    exactly as: Status gives true; Nil gives false with the per op type
    message from kSetOpErrMsg (unknown error for kSetAnyhow, key already
    exist for kSetIfNotExist, key not exist for kSetIfExist); Error gives
    false with the reply text propagated; any other reply kind gives false
    with the unexpected reply type message. -/
theorem set_reply_classification (tr : Transport) (s : ClientState)
    (c : RedisContext) (key val : Bytes) (ex : Option Int) (op : Int)
    (r : RedisReply)
    (hctx : s.m_context = some c)
    (hop : op = 0 ∨ op = 1 ∨ op = 2)
    (hex : ex = none ∨ ∃ v, ex = some v ∧ 0 < v)
    (hrun : ∀ cmd, tr.run cmd = some r) :
    (r.ty = REDIS_REPLY_STATUS → (RedisClient.set tr s key val ex op).ok = true)
  ∧ (r.ty = REDIS_REPLY_NIL → (RedisClient.set tr s key val ex op).ok = false ∧
      ((RedisClient.set tr s key val ex op).state).m_errmsg =
        some (ErrMsg.setOpErr (kSetOpErrMsg.getD op.toNat "")))
  ∧ (r.ty = REDIS_REPLY_ERROR → (RedisClient.set tr s key val ex op).ok = false ∧
      ((RedisClient.set tr s key val ex op).state).m_errmsg =
        some (ErrMsg.fromReplyStr r.str))
  ∧ (r.ty ≠ REDIS_REPLY_STATUS → r.ty ≠ REDIS_REPLY_NIL → r.ty ≠ REDIS_REPLY_ERROR →
      (RedisClient.set tr s key val ex op).ok = false ∧
      ((RedisClient.set tr s key val ex op).state).m_errmsg =
        some (ErrMsg.unexpectedReplyType r.ty))
  ∧ kSetOpErrMsg = ["Unknow error", "Key already exist", "Key not exist"] := by
  obtain ⟨ev, hset⟩ := set_reduces tr s c key val r op ex hctx hrun hop hex
  rw [hset]
  exact ⟨(setFinish_classify op r s ev).1, (setFinish_classify op r s ev).2.1,
         (setFinish_classify op r s ev).2.2.1, (setFinish_classify op r s ev).2.2.2, rfl⟩

/-- Witness for C3: a Status reply to a SET NX with a live connection gives
    true. -/
theorem set_reply_classification_witness :
    sConn.m_context = some ctx0 ∧
    (RedisClient.set (trConst (RedisReply.mk REDIS_REPLY_STATUS 0 (some [79, 75]) []))
        sConn [107] [118] none 1).ok = true :=
  ⟨rfl,
   (set_reply_classification (trConst (RedisReply.mk REDIS_REPLY_STATUS 0 (some [79, 75]) []))
      sConn ctx0 [107] [118] none 1 (RedisReply.mk REDIS_REPLY_STATUS 0 (some [79, 75]) [])
      rfl (Or.inr (Or.inl rfl)) (Or.inl rfl) (fun _ => rfl)).1 rfl⟩

/-- C4: with a live connection, get classifies the transport reply exactly
    as: a BulkString reply gives success with val set to the full byte
    payload taken with its explicit length (binary safe) and the key_exists
    cell set true; a Nil reply gives SUCCESS with the empty value and the
    key_exists cell set false; an Error reply gives false with the reply
    text propagated; any other reply kind gives false with the unexpected
    reply type message. -/
theorem get_reply_classification (tr : Transport) (s : ClientState)
    (c : RedisContext) (key val0 : Bytes) (b : Bool) (r : RedisReply)
    (hctx : s.m_context = some c) (hrun : ∀ cmd, tr.run cmd = some r) :
    (r.ty = REDIS_REPLY_STRING →
        (RedisClient.get tr s key val0 (some b)).ok = true ∧
        (RedisClient.get tr s key val0 (some b)).out = (r.str.getD [], some true))
  ∧ (r.ty = REDIS_REPLY_NIL →
        (RedisClient.get tr s key val0 (some b)).ok = true ∧
        (RedisClient.get tr s key val0 (some b)).out = ([], some false))
  ∧ (r.ty = REDIS_REPLY_ERROR →
        (RedisClient.get tr s key val0 (some b)).ok = false ∧
        ((RedisClient.get tr s key val0 (some b)).state).m_errmsg =
          some (ErrMsg.fromReplyStr r.str))
  ∧ (r.ty ≠ REDIS_REPLY_STRING → r.ty ≠ REDIS_REPLY_NIL → r.ty ≠ REDIS_REPLY_ERROR →
        (RedisClient.get tr s key val0 (some b)).ok = false ∧
        ((RedisClient.get tr s key val0 (some b)).state).m_errmsg =
          some (ErrMsg.unexpectedReplyType r.ty)) := by
  have hE : RedisClient.exec tr s (Cmd.getCmd key) =
      (some r, s, [Event.command (Cmd.getCmd key)]) := by
    simp [RedisClient.exec, hctx, hrun]
  refine ⟨?_, ?_, ?_, ?_⟩
  · intro hty
    simp [RedisClient.get, hE, hty, binStr]
  · intro hty
    simp [RedisClient.get, hE, hty, REDIS_REPLY_NIL, REDIS_REPLY_STRING]
  · intro hty
    simp [RedisClient.get, hE, hty, REDIS_REPLY_ERROR, REDIS_REPLY_STRING,
          REDIS_REPLY_NIL, RedisClient.set_errmsg]
  · intro h1 h2 h3
    simp [RedisClient.get, hE, h1, h2, h3, RedisClient.set_errmsg]

/-- Witness for C4: a BulkString reply whose payload has an embedded NUL
    byte is returned whole. -/
theorem get_reply_classification_witness :
    (RedisClient.get (trConst (RedisReply.mk REDIS_REPLY_STRING 0 (some [5, 0, 7]) []))
        sConn [107] [] (some false)).ok = true ∧
    (RedisClient.get (trConst (RedisReply.mk REDIS_REPLY_STRING 0 (some [5, 0, 7]) []))
        sConn [107] [] (some false)).out = ([5, 0, 7], some true) :=
  (get_reply_classification (trConst (RedisReply.mk REDIS_REPLY_STRING 0 (some [5, 0, 7]) []))
     sConn ctx0 [107] [] false (RedisReply.mk REDIS_REPLY_STRING 0 (some [5, 0, 7]) [])
     rfl (fun _ => rfl)).1 rfl

theorem expireCheck_classify (r : RedisReply) (s1 : ClientState) (ev : List Event) :
    ((checkedOp (some r, s1, ev) REDIS_REPLY_INTEGER () expireFinish).ok = true ↔
        (r.ty = REDIS_REPLY_INTEGER ∧ r.integer = 1))
  ∧ (r.ty = REDIS_REPLY_INTEGER → r.integer = 0 →
      (checkedOp (some r, s1, ev) REDIS_REPLY_INTEGER () expireFinish).ok = false ∧
      ((checkedOp (some r, s1, ev) REDIS_REPLY_INTEGER () expireFinish).state).m_errmsg =
        some (ErrMsg.keyMissingOrTimeoutNotSet 0))
  ∧ (r.ty = REDIS_REPLY_ERROR →
      (checkedOp (some r, s1, ev) REDIS_REPLY_INTEGER () expireFinish).ok = false ∧
      ((checkedOp (some r, s1, ev) REDIS_REPLY_INTEGER () expireFinish).state).m_errmsg =
        some (ErrMsg.fromReplyStr r.str))
  ∧ (r.ty ≠ REDIS_REPLY_INTEGER → r.ty ≠ REDIS_REPLY_ERROR →
      (checkedOp (some r, s1, ev) REDIS_REPLY_INTEGER () expireFinish).ok = false ∧
      ((checkedOp (some r, s1, ev) REDIS_REPLY_INTEGER () expireFinish).state).m_errmsg =
        some (ErrMsg.unexpectedReplyType r.ty)) := by
  refine ⟨?_, ?_, ?_, ?_⟩
  · by_cases hI : r.ty = REDIS_REPLY_INTEGER
    · by_cases h1 : r.integer = 1 <;>
        simp [checkedOp, checkReply, expireFinish, hI, h1, setErrOpt,
              RedisClient.set_errmsg]
    · by_cases hEr : r.ty = REDIS_REPLY_ERROR
      · simp [checkedOp, checkReply, expireFinish, hI, hEr, setErrOpt,
              REDIS_REPLY_INTEGER, REDIS_REPLY_ERROR, RedisClient.set_errmsg]
      · simp [checkedOp, checkReply, expireFinish, hI, hEr, setErrOpt,
              RedisClient.set_errmsg]
  · intro hI h0
    simp [checkedOp, checkReply, expireFinish, hI, h0, setErrOpt,
          RedisClient.set_errmsg]
  · intro hEr
    simp [checkedOp, checkReply, hEr, REDIS_REPLY_ERROR, REDIS_REPLY_INTEGER,
          setErrOpt, RedisClient.set_errmsg]
  · intro h1 h2
    simp [checkedOp, checkReply, h1, h2, setErrOpt, RedisClient.set_errmsg]

/-- C7: with a live connection, expire and expire_at return true exactly
    when the reply is an Integer equal to 1; an Integer reply of 0 returns
    false recording the key missing or timeout not set message; an Error
    reply propagates its text; any other reply kind returns false with the
    unexpected reply type message. -/
theorem expire_integer_reply_classification (tr : Transport) (s : ClientState)
    (c : RedisContext) (key : Bytes) (seconds : Nat) (t : Int) (r : RedisReply)
    (hctx : s.m_context = some c) (hrun : ∀ cmd, tr.run cmd = some r) :
    ((RedisClient.expire tr s key seconds).ok = true ↔
        (r.ty = REDIS_REPLY_INTEGER ∧ r.integer = 1))
  ∧ ((RedisClient.expire_at tr s key t).ok = true ↔
        (r.ty = REDIS_REPLY_INTEGER ∧ r.integer = 1))
  ∧ (r.ty = REDIS_REPLY_INTEGER → r.integer = 0 →
      (RedisClient.expire tr s key seconds).ok = false ∧
      ((RedisClient.expire tr s key seconds).state).m_errmsg =
        some (ErrMsg.keyMissingOrTimeoutNotSet 0) ∧
      (RedisClient.expire_at tr s key t).ok = false ∧
      ((RedisClient.expire_at tr s key t).state).m_errmsg =
        some (ErrMsg.keyMissingOrTimeoutNotSet 0))
  ∧ (r.ty = REDIS_REPLY_ERROR →
      (RedisClient.expire tr s key seconds).ok = false ∧
      ((RedisClient.expire tr s key seconds).state).m_errmsg =
        some (ErrMsg.fromReplyStr r.str) ∧
      (RedisClient.expire_at tr s key t).ok = false ∧
      ((RedisClient.expire_at tr s key t).state).m_errmsg =
        some (ErrMsg.fromReplyStr r.str))
  ∧ (r.ty ≠ REDIS_REPLY_INTEGER → r.ty ≠ REDIS_REPLY_ERROR →
      (RedisClient.expire tr s key seconds).ok = false ∧
      ((RedisClient.expire tr s key seconds).state).m_errmsg =
        some (ErrMsg.unexpectedReplyType r.ty) ∧
      (RedisClient.expire_at tr s key t).ok = false ∧
      ((RedisClient.expire_at tr s key t).state).m_errmsg =
        some (ErrMsg.unexpectedReplyType r.ty)) := by
  have hE1 : RedisClient.expire tr s key seconds =
      checkedOp (some r, s, [Event.command (Cmd.expireCmd key seconds)])
        REDIS_REPLY_INTEGER () expireFinish := by
    simp [RedisClient.expire, RedisClient.exec, hctx, hrun]
  have hE2 : RedisClient.expire_at tr s key t =
      checkedOp (some r, s, [Event.command (Cmd.expireAtCmd key t)])
        REDIS_REPLY_INTEGER () expireFinish := by
    simp [RedisClient.expire_at, RedisClient.exec, hctx, hrun]
  have c1 := expireCheck_classify r s [Event.command (Cmd.expireCmd key seconds)]
  have c2 := expireCheck_classify r s [Event.command (Cmd.expireAtCmd key t)]
  rw [hE1, hE2]
  exact ⟨c1.1, c2.1,
         fun hI h0 => ⟨(c1.2.1 hI h0).1, (c1.2.1 hI h0).2,
                       (c2.2.1 hI h0).1, (c2.2.1 hI h0).2⟩,
         fun hEr => ⟨(c1.2.2.1 hEr).1, (c1.2.2.1 hEr).2,
                     (c2.2.2.1 hEr).1, (c2.2.2.1 hEr).2⟩,
         fun h1 h2 => ⟨(c1.2.2.2 h1 h2).1, (c1.2.2.2 h1 h2).2,
                       (c2.2.2.2 h1 h2).1, (c2.2.2.2 h1 h2).2⟩⟩

/-- Witness for C7: an Integer 1 reply makes expire return true. -/
theorem expire_integer_reply_classification_witness :
    (RedisClient.expire (trConst (RedisReply.mk REDIS_REPLY_INTEGER 1 none []))
        sConn [107] 9).ok = true :=
  (expire_integer_reply_classification
     (trConst (RedisReply.mk REDIS_REPLY_INTEGER 1 none []))
     sConn ctx0 [107] 9 0 (RedisReply.mk REDIS_REPLY_INTEGER 1 none [])
     rfl (fun _ => rfl)).1.mpr ⟨rfl, rfl⟩

theorem takeWhile_until_null (pre post : Bytes) (h : ∀ b ∈ pre, b ≠ 0) :
    (pre ++ 0 :: post).takeWhile (fun b => b != 0) = pre := by
  induction pre with
  | nil => simp
  | cons a as ih =>
    have ha : a ≠ 0 := h a (List.mem_cons_self a as)
    have h2 : ∀ b ∈ as, b ≠ 0 := fun b hb => h b (List.mem_cons_of_mem a hb)
    have hb : (a != 0) = true := by simpa using ha
    simp [List.takeWhile, hb, ih h2]

/-- C9: an HMGET String element whose payload holds an embedded NUL byte is
    assigned to its field only up to the first NUL (hget copies through the
    null terminated char pointer and ignores the explicit length), while get
    returns the full payload of the same bytes: hash field values read back
    through hget are not binary safe, unlike get. -/
theorem hget_truncates_at_null_byte (tr tr2 : Transport) (s : ClientState)
    (c : RedisContext) (key fname v0 val0 : Bytes) (pre post : Bytes) (b : Bool)
    (hctx : s.m_context = some c)
    (hpre : ∀ x ∈ pre, x ≠ 0)
    (hrun : ∀ cmd, tr.run cmd = some (RedisReply.mk REDIS_REPLY_ARRAY 0 none
        [RedisReply.mk REDIS_REPLY_STRING 0 (some (pre ++ 0 :: post)) []]))
    (hrun2 : ∀ cmd, tr2.run cmd = some
        (RedisReply.mk REDIS_REPLY_STRING 0 (some (pre ++ 0 :: post)) [])) :
    (RedisClient.hget tr s key [(fname, v0)]).ok = true
  ∧ (RedisClient.hget tr s key [(fname, v0)]).out = [(fname, pre)]
  ∧ (RedisClient.get tr2 s key val0 (some b)).ok = true
  ∧ (RedisClient.get tr2 s key val0 (some b)).out.1 = pre ++ 0 :: post
  ∧ pre ≠ pre ++ 0 :: post := by
  refine ⟨?_, ?_, ?_, ?_, ?_⟩
  · simp [RedisClient.hget, RedisClient.execm, RedisClient.exec, hctx, hrun,
          checkedOp, checkReply, RedisReply.ty, RedisReply.elements,
          RedisReply.element, RedisReply.str, REDIS_REPLY_ARRAY,
          REDIS_REPLY_STRING, hmgetFill, cstr, setErrOpt]
  · simp [RedisClient.hget, RedisClient.execm, RedisClient.exec, hctx, hrun,
          checkedOp, checkReply, RedisReply.ty, RedisReply.elements,
          RedisReply.element, RedisReply.str, REDIS_REPLY_ARRAY,
          REDIS_REPLY_STRING, hmgetFill, cstr, setErrOpt,
          takeWhile_until_null pre post hpre]
  · simp [RedisClient.get, RedisClient.exec, hctx, hrun2, RedisReply.ty,
          REDIS_REPLY_STRING]
  · simp [RedisClient.get, RedisClient.exec, hctx, hrun2, RedisReply.ty,
          REDIS_REPLY_STRING, binStr, RedisReply.str]
  · intro hcontra
    have hlen := congrArg List.length hcontra
    simp at hlen

/-- Witness for C9: payload 104, 0, 105 comes back as 104 through hget and
    whole through get. -/
theorem hget_truncates_at_null_byte_witness :
    (RedisClient.hget (trConst (RedisReply.mk REDIS_REPLY_ARRAY 0 none
        [RedisReply.mk REDIS_REPLY_STRING 0 (some [104, 0, 105]) []]))
        sConn [107] [([97], [])]).out = [([97], [104])] ∧
    (RedisClient.get (trConst (RedisReply.mk REDIS_REPLY_STRING 0 (some [104, 0, 105]) []))
        sConn [107] [] (some false)).out.1 = [104, 0, 105] := by
  have h := hget_truncates_at_null_byte
    (trConst (RedisReply.mk REDIS_REPLY_ARRAY 0 none
        [RedisReply.mk REDIS_REPLY_STRING 0 (some [104, 0, 105]) []]))
    (trConst (RedisReply.mk REDIS_REPLY_STRING 0 (some [104, 0, 105]) []))
    sConn ctx0 [107] [97] [] [] [104] [105] false
    rfl (by decide) (fun _ => rfl) (fun _ => rfl)
  exact ⟨h.2.1, h.2.2.2.1⟩

/-- C5 (code bug evaluation): on an HMGET reply that is an Array holding an
    Error element, hget returns false but records the error message from the
    str field of the OUTER array reply (NULL for an array reply), not the
    error text of the element: set_errmsg(reply->str) at redis_client.cpp:293
    reads reply, not r. -/
theorem hget_error_element_uses_outer_reply_str :
    (RedisClient.hget (trConst (RedisReply.mk REDIS_REPLY_ARRAY 0 none
        [RedisReply.mk REDIS_REPLY_ERROR 0 (some [98, 111, 111, 109]) []]))
        sConn [104] [([97], [])]).ok = false
  ∧ ((RedisClient.hget (trConst (RedisReply.mk REDIS_REPLY_ARRAY 0 none
        [RedisReply.mk REDIS_REPLY_ERROR 0 (some [98, 111, 111, 109]) []]))
        sConn [104] [([97], [])]).state).m_errmsg = some (ErrMsg.fromReplyStr none)
  ∧ some (ErrMsg.fromReplyStr none) ≠
      some (ErrMsg.fromReplyStr
        ((RedisReply.mk REDIS_REPLY_ERROR 0 (some [98, 111, 111, 109]) []).str)) := by
  decide
